import Mathlib

/-!
Verification of the mdformat-hooks repository: a shallow embedding of the
configuration resolver (`mdformat_mdsf/_config.py`, `mdformat_mdsf/plugin.py`),
the per-block mdsf formatter (`mdformat_mdsf/_formatter.py`) and the shell-hooks
plugin (`mdformat_hooks/plugin.py`), together with theorems about the claims of
the specification.

External effects (subprocess spawning, PATH lookup, the environment) are
modelled as explicit oracle parameters; Python exceptions are modelled with
`Except`.
-/

/-! ## A model of the Python values flowing through the options mappings -/

/-- A Python value as it can appear in an mdformat options mapping:
`None`, a string, an int, a bool, or a list of strings. -/
inductive PyVal where
  | vNone : PyVal
  | vStr (s : String) : PyVal
  | vInt (n : Int) : PyVal
  | vBool (b : Bool) : PyVal
  | vStrList (xs : List String) : PyVal
deriving DecidableEq, Repr

/-- Python truthiness of a value (`if value:`). -/
def PyVal.truthy : PyVal → Bool
  | .vNone => false
  | .vStr s => !(s = "")
  | .vInt n => !(n = 0)
  | .vBool b => b
  | .vStrList xs => !(xs = [])

/-- The backtick character (the code-fence marker character). -/
def btick : Char := Char.ofNat 96

/-- The single-quote character, used by Python repr of string lists. -/
def squote : Char := Char.ofNat 39

/-- Python whitespace characters recognised by `str.strip()` and `int()`
(ASCII portion). -/
def isPySpace (c : Char) : Bool :=
  c = ' ' || c = Char.ofNat 9 || c = Char.ofNat 10 || c = Char.ofNat 13 ||
  c = Char.ofNat 11 || c = Char.ofNat 12

/-- `str.strip()` on a character list: drop whitespace from both ends. -/
def pyStripL (l : List Char) : List Char :=
  ((l.dropWhile isPySpace).reverse.dropWhile isPySpace).reverse

/-- `str.strip()` on a string. -/
def pyStrip (s : String) : String := String.mk (pyStripL s.data)

/-- The exceptions the configuration code can raise:
`ValueError` (from `int("abc")`) or `TypeError` (from `int(None)`, `set(3)`). -/
inductive ConfigError where
  | valueError : ConfigError
  | typeError : ConfigError
deriving DecidableEq, Repr

/-- Digit run of a Python integer literal, allowing single underscores
between digits (`int("1_0") == 10`, `int("1__0")` raises). -/
def digitsCore : List Char → Nat → Option Nat
  | [], acc => some acc
  | c :: cs, acc =>
    if c.isDigit then digitsCore cs (acc * 10 + (c.toNat - 48))
    else if c = '_' then
      match cs with
      | d :: cs2 =>
        if d.isDigit then digitsCore cs2 (acc * 10 + (d.toNat - 48)) else none
      | [] => none
    else none

/-- Python `int(s)` for a string `s`: strip whitespace, optional sign,
base-10 digits; raises `ValueError` on anything else. -/
def pyIntOfString (s : String) : Except ConfigError Int :=
  let t := pyStripL s.data
  let core : List Char → Except ConfigError Nat := fun l =>
    match l with
    | c :: cs =>
      if c.isDigit then
        match digitsCore cs (c.toNat - 48) with
        | some n => .ok n
        | none => .error .valueError
      else .error .valueError
    | [] => .error .valueError
  match t with
  | '-' :: rest => (core rest).map (fun n => -(n : Int))
  | '+' :: rest => (core rest).map (fun n => (n : Int))
  | l => (core l).map (fun n => (n : Int))

/-- Python `int(value)`: ints and bools convert, strings are parsed,
`None` and lists raise `TypeError`. -/
def pyInt : PyVal → Except ConfigError Int
  | .vInt n => .ok n
  | .vBool b => .ok (if b then 1 else 0)
  | .vStr s => pyIntOfString s
  | .vNone => .error .typeError
  | .vStrList _ => .error .typeError

/-- Python `str(value)`. -/
def pyStr : PyVal → String
  | .vStr s => s
  | .vInt n => toString n
  | .vBool b => if b then "True" else "False"
  | .vNone => "None"
  | .vStrList xs =>
    "[" ++ String.intercalate ", "
      (xs.map (fun x => String.mk (squote :: x.data ++ [squote]))) ++ "]"

/-- Python `set(value)` for the values appearing as language lists, kept as a
duplicate-free list: a list of strings keeps its distinct elements, a string
becomes its set of characters, other values raise `TypeError`. -/
def pySet : PyVal → Except ConfigError (List String)
  | .vStrList xs => .ok xs.eraseDups
  | .vStr s => .ok ((s.data.map (fun c => String.mk [c])).eraseDups)
  | .vInt _ => .error .typeError
  | .vBool _ => .error .typeError
  | .vNone => .error .typeError

/-- `isinstance(v, str)`. -/
def isVStr : PyVal → Bool
  | .vStr _ => true
  | _ => false

/-- `isinstance(v, bool)`. -/
def isVBool : PyVal → Bool
  | .vBool _ => true
  | _ => false

/-- `isinstance(v, int)`; Python `bool` is a subclass of `int`. -/
def isIntLike : PyVal → Bool
  | .vInt _ => true
  | .vBool _ => true
  | _ => false

/-- The integer stored when an `isinstance(v, int)` value is assigned. -/
def intLikeVal : PyVal → Int
  | .vInt n => n
  | .vBool b => if b then 1 else 0
  | _ => 0

/-- The string stored when an `isinstance(v, str)` value is assigned. -/
def strVal : PyVal → String
  | .vStr s => s
  | _ => ""

/-- `{lang.strip() for lang in languages.split(",")}` from
`MdsfConfig.update_from_options`. -/
def splitCommaTrim (s : String) : List String :=
  ((s.splitOn ",").map pyStrip).eraseDups

/-! ## The mdsf configuration (`mdformat_mdsf/_config.py`) -/

/-- `MdsfConfig.__init__`: the mutable settings record with its hardcoded
defaults (`_config_path = None`, `_timeout = 30`, `_languages = set()`,
`_fail_on_error = False`).  The language set is kept as a duplicate-free
list. -/
structure MdsfConfig where
  config_path : PyVal := .vNone
  timeout : Int := 30
  languages : List String := []
  fail_on_error : Bool := false
deriving DecidableEq, Repr

/-- The default configuration built by `MdsfConfig.__init__`. -/
def mdsfDefault : MdsfConfig := {}

/-- The fields of the options mapping that the configuration code reads:
`options["mdformat"][...]` (API layer),
`options["mdformat"]["plugin"]["mdsf"][...]` (plugin layer, with
`plugin_present` the truthiness of that sub-dict), and the flat CLI keys
read by `_setup_from_options`. -/
structure MdsfOptions where
  api_config : PyVal := .vNone
  api_timeout : PyVal := .vNone
  api_languages : PyVal := .vNone
  api_fail : PyVal := .vNone
  plugin_present : Bool := false
  plugin_config : PyVal := .vNone
  plugin_timeout : PyVal := .vNone
  plugin_languages : PyVal := .vNone
  plugin_fail : PyVal := .vNone
  cli_mdsf_config : PyVal := .vNone
  cli_mdsf_timeout : PyVal := .vNone
  cli_mdsf_languages : PyVal := .vNone
  cli_mdsf_fail : PyVal := .vNone
deriving DecidableEq, Repr

/-- The process environment as read by `update_from_env`:
`os.environ.get("MDSF_CONFIG")` and `os.environ.get("MDSF_TIMEOUT")`. -/
structure EnvMap where
  mdsf_config : Option String := none
  mdsf_timeout : Option String := none
deriving DecidableEq, Repr

namespace MdsfConfig

/-- One truthiness-guarded assignment of the config path
(`if value: self._config_path = value`), as performed by the API and plugin
layers of `update_from_options`. -/
def setConfigStep (v : PyVal) (c : MdsfConfig) : MdsfConfig :=
  if v.truthy then { c with config_path := v } else c

/-- One truthiness-guarded assignment of the timeout
(`if value: self._timeout = int(value)`); `int` can raise. -/
def setTimeoutStep (v : PyVal) (c : MdsfConfig) : Except ConfigError MdsfConfig :=
  if v.truthy then (pyInt v).map (fun n => { c with timeout := n })
  else .ok c

/-- The API-layer language assignment
(`if value: self._languages = set(value)`); `set` can raise. -/
def setLanguagesApiStep (v : PyVal) (c : MdsfConfig) :
    Except ConfigError MdsfConfig :=
  if v.truthy then (pySet v).map (fun ls => { c with languages := ls })
  else .ok c

/-- The plugin-layer language assignment, which splits and trims a
comma-separated string and applies `set(...)` to anything else. -/
def setLanguagesPluginStep (v : PyVal) (c : MdsfConfig) :
    Except ConfigError MdsfConfig :=
  if v.truthy then
    ((match v with
      | .vStr s => .ok { c with languages := splitCommaTrim s }
      | w => (pySet w).map (fun ls => { c with languages := ls })) :
      Except ConfigError MdsfConfig)
  else .ok c

/-- One truthiness-guarded assignment of `fail_on_error`
(`if value: self._fail_on_error = bool(value)`). -/
def setFailStep (v : PyVal) (c : MdsfConfig) : MdsfConfig :=
  if v.truthy then { c with fail_on_error := v.truthy } else c

/-- `MdsfConfig.update_from_options`: the API-layer assignments (config,
timeout, languages, fail_on_error) followed, inside `if plugin_opts:`, by
the plugin-layer assignments, in source order; each layer overwrites the
fields for which it holds a truthy value.  A malformed `int(...)` or
`set(...)` propagates as an exception. -/
def update_from_options (c : MdsfConfig) (o : MdsfOptions) :
    Except ConfigError MdsfConfig :=
  (setTimeoutStep o.api_timeout (setConfigStep o.api_config c)).bind fun c1 =>
  (setLanguagesApiStep o.api_languages c1).bind fun c2 =>
  let c3 := setFailStep o.api_fail c2
  if o.plugin_present then
    (setTimeoutStep o.plugin_timeout
        (setConfigStep o.plugin_config c3)).bind fun c4 =>
    (setLanguagesPluginStep o.plugin_languages c4).map fun c5 =>
    setFailStep o.plugin_fail c5
  else .ok c3

/-- `MdsfConfig.update_from_env`: `MDSF_CONFIG` overwrites the config path
when set and non-empty; `MDSF_TIMEOUT` overwrites the timeout when set,
non-empty and parseable (`contextlib.suppress(ValueError)` otherwise). -/
def update_from_env (c : MdsfConfig) (e : EnvMap) : MdsfConfig :=
  let c1 := match e.mdsf_config with
    | some s => if s = "" then c else { c with config_path := .vStr s }
    | none => c
  match e.mdsf_timeout with
  | some s =>
    if s = "" then c1
    else
      match pyIntOfString s with
      | .ok n => { c1 with timeout := n }
      | .error _ => c1
  | none => c1

/-- `MdsfConfig.is_language_enabled`: empty set means every language is
enabled, otherwise membership. -/
def is_language_enabled (c : MdsfConfig) (language : String) : Bool :=
  if c.languages = [] then true else c.languages.contains language

end MdsfConfig

/-- The CLI assignment of `--mdsf-config` inside `_setup_from_options`,
guarded by truthiness and `isinstance(..., str)`. -/
def cliConfigStep (o : MdsfOptions) (c : MdsfConfig) : MdsfConfig :=
  if o.cli_mdsf_config.truthy && isVStr o.cli_mdsf_config
  then { c with config_path := o.cli_mdsf_config } else c

/-- The CLI assignment of `--mdsf-timeout`, guarded by truthiness and
`isinstance(..., int)`. -/
def cliTimeoutStep (o : MdsfOptions) (c : MdsfConfig) : MdsfConfig :=
  if o.cli_mdsf_timeout.truthy && isIntLike o.cli_mdsf_timeout
  then { c with timeout := intLikeVal o.cli_mdsf_timeout } else c

/-- The CLI assignment of `--mdsf-languages` (split on commas and trimmed),
guarded by truthiness and `isinstance(..., str)`. -/
def cliLanguagesStep (o : MdsfOptions) (c : MdsfConfig) : MdsfConfig :=
  if o.cli_mdsf_languages.truthy && isVStr o.cli_mdsf_languages
  then { c with languages := splitCommaTrim (strVal o.cli_mdsf_languages) }
  else c

/-- The CLI assignment of `--mdsf-fail-on-error`, guarded by truthiness and
`isinstance(..., bool)`. -/
def cliFailStep (o : MdsfOptions) (c : MdsfConfig) : MdsfConfig :=
  if o.cli_mdsf_fail.truthy && isVBool o.cli_mdsf_fail
  then { c with fail_on_error := o.cli_mdsf_fail.truthy } else c

/-- `_setup_from_options` from `mdformat_mdsf/plugin.py`: the four
CLI-argument assignments, then `update_from_options`, then
`update_from_env`. -/
def _setup_from_options (c : MdsfConfig) (o : MdsfOptions) (e : EnvMap) :
    Except ConfigError MdsfConfig :=
  ((cliFailStep o (cliLanguagesStep o (cliTimeoutStep o
      (cliConfigStep o c)))).update_from_options o).map
    (fun c5 => c5.update_from_env e)

/-! ## The per-block mdsf formatter (`mdformat_mdsf/_formatter.py`) -/

/-- Python `s.split("\n")` on a character list: the list of lines, never
empty (`"".split("\n") == [""]`). -/
def splitNl : List Char → List (List Char)
  | [] => [[]]
  | c :: rest =>
    if c = '\n' then [] :: splitNl rest
    else
      match splitNl rest with
      | [] => [[c]]
      | h :: t => (c :: h) :: t

/-- Python `"\n".join(lines)`. -/
def joinNl : List (List Char) → List Char
  | [] => []
  | [x] => x
  | x :: xs => x ++ '\n' :: joinNl xs

/-- Python `line.startswith("```")`. -/
def startsFence : List Char → Bool
  | a :: b :: c :: _ => a = btick && b = btick && c = btick
  | _ => false

/-- Python `s.endswith("\n")` on a character list. -/
def endsNl (l : List Char) : Bool := l.getLast? = some '\n'

/-- `if lines and lines[0].startswith("```"): lines = lines[1:]`. -/
def dropOpenFence : List (List Char) → List (List Char)
  | [] => []
  | l :: rest => if startsFence l then rest else l :: rest

/-- `if lines and lines[-1].startswith("```"): lines = lines[:-1]`. -/
def dropCloseFence (ls : List (List Char)) : List (List Char) :=
  match ls.getLast? with
  | some l => if startsFence l then ls.dropLast else ls
  | none => ls

/-- Outcome of one `subprocess.run(..., check=True)` call on the mdsf
binary: captured stdout on exit code zero, `CalledProcessError` with the
captured stderr on a non-zero exit, or `TimeoutExpired`. -/
inductive MdsfProcResult where
  | success (stdout : String) : MdsfProcResult
  | calledProcessError (stderr : String) : MdsfProcResult
  | timedOut : MdsfProcResult

/-- The external world seen by the formatter: whether `shutil.which("mdsf")`
finds the binary, and what one subprocess invocation (argument list, stdin,
timeout) produces. -/
structure MdsfEnv where
  binFound : Bool
  run : List String → String → Int → MdsfProcResult

/-- The `RuntimeError`s `_format_code_with_mdsf` can raise when
`fail_on_error` is set, one constructor per raise site. -/
inductive MdsfError where
  | toolMissing (msg : String)
  | formatFailed (language stderr : String)
  | formatTimedOut (language : String) (timeout : Int)
deriving DecidableEq, Repr

/-- The message raised by `_find_mdsf_bin` when the binary is absent. -/
def mdsfMissingMsg : String :=
  "mdsf is not installed. Install it from https://github.com/hougesen/mdsf"

/-- `_format_code_with_mdsf` from `mdformat_mdsf/_formatter.py`: empty code
is returned unchanged; a disabled language is returned unchanged; a missing
binary either raises (fail_on_error) or returns the code unchanged; otherwise
the code is wrapped in a fence, piped to
`mdsf format --stdin [--config PATH]`, and on success the stdout is
stripped, the fence lines removed, and a trailing newline restored when the
original code had one. -/
def _format_code_with_mdsf (env : MdsfEnv) (cfg : MdsfConfig)
    (unformatted language : String) : Except MdsfError String :=
  if unformatted.data = [] then .ok unformatted
  else if !(cfg.is_language_enabled language) then .ok unformatted
  else
    let markdown_input := "```" ++ language ++ "\n" ++ unformatted ++ "\n```\n"
    if !env.binFound then
      (if cfg.fail_on_error then .error (.toolMissing mdsfMissingMsg)
       else .ok unformatted)
    else
      let cmd := ["mdsf", "format", "--stdin"] ++
        (if cfg.config_path.truthy then ["--config", pyStr cfg.config_path]
         else [])
      match env.run cmd markdown_input cfg.timeout with
      | .calledProcessError stderr =>
        if cfg.fail_on_error then .error (.formatFailed language stderr)
        else .ok unformatted
      | .timedOut =>
        if cfg.fail_on_error then .error (.formatTimedOut language cfg.timeout)
        else .ok unformatted
      | .success stdout =>
        let lines := dropCloseFence (dropOpenFence (splitNl (pyStripL stdout.data)))
        let formatted_code := joinNl lines
        let formatted_code :=
          if endsNl unformatted.data && !(endsNl formatted_code)
          then formatted_code ++ ['\n'] else formatted_code
        .ok (String.mk formatted_code)

/-! ## The shell-hooks plugin (`mdformat_hooks/plugin.py`) -/

/-- One CLI argument registered by the hooks `add_cli_argument_group`:
its flag string, whether it is a `store_true` flag, and its integer
default when one is declared. -/
structure CliArg where
  flag : String
  isStoreTrue : Bool
  intDefault : Option Int
deriving DecidableEq, Repr

/-- The arguments registered by `add_cli_argument_group` in
`mdformat_hooks/plugin.py`: `--post-command`, `--timeout` (default 30) and
`--strict-hooks`. -/
def add_cli_argument_group : List CliArg :=
  [⟨"--post-command", false, none⟩,
   ⟨"--timeout", false, some 30⟩,
   ⟨"--strict-hooks", true, none⟩]

/-- Outcome of one `subprocess.run(command, shell=True, ...)` call:
completion with an exit code, captured stdout and stderr; expiry of the
timeout; or any other invocation error (command not found, permission
denied, ...). -/
inductive ShellOutcome where
  | completed (returncode : Int) (stdout stderr : String) : ShellOutcome
  | timedOut : ShellOutcome
  | otherError (msg : String) : ShellOutcome

/-- The external shell, as a function of the command string, the stdin text
and the timeout. -/
def ShellOracle := String → String → Int → ShellOutcome

/-- The exceptions the hooks plugin can raise.  Python raises `RuntimeError`
at the first two sites and re-raises the underlying exception at the third;
each constructor records the raise site together with the data interpolated
into the message.  `valueError` covers `int(timeout)` failing inside the
processor closure. -/
inductive HookError where
  | commandFailed (returncode : Int) (stderr msg : String)
  | commandTimedOut (msg : String)
  | invocationError (msg : String)
  | valueError
deriving DecidableEq, Repr

/-- The `full_error` message built by `_run_shell_command` for a non-zero
exit code in strict mode. -/
def hookFailMsg (returncode : Int) (command stderr : String) : String :=
  "Command failed with exit code " ++ toString returncode ++ ": " ++ command
    ++ "\n" ++ "stderr: " ++ stderr

/-- The `timeout_msg` built by `_run_shell_command` when the command times
out. -/
def hookTimeoutMsg (timeout : Int) (command : String) : String :=
  "mdformat-hooks: Command timed out after " ++ toString timeout
    ++ " seconds: " ++ command

/-- `_run_shell_command`: an empty or `None` command returns the text
unchanged; otherwise the command runs with the text on stdin.  Exit code 0
returns the captured stdout verbatim; a non-zero exit, a timeout or any
other invocation error returns the original text when `strict` is false and
raises when `strict` is true. -/
def _run_shell_command (sh : ShellOracle) (text : String)
    (command : Option String) (timeout : Int) (strict : Bool) :
    Except HookError String :=
  match command with
  | none => .ok text
  | some cmd =>
    if cmd = "" then .ok text
    else
      match sh cmd text timeout with
      | .completed returncode stdout stderr =>
        if returncode = 0 then .ok stdout
        else if strict then
          .error (.commandFailed returncode stderr
            (hookFailMsg returncode cmd stderr))
        else .ok text
      | .timedOut =>
        if strict then .error (.commandTimedOut (hookTimeoutMsg timeout cmd))
        else .ok text
      | .otherError msg =>
        if strict then .error (.invocationError msg) else .ok text

/-- The hooks option fields read through `get_conf`: the API layer
`options["mdformat"][key]` and the plugin layer
`options["mdformat"]["plugin"]["hooks"][key]`, plus whether the `"mdformat"`
key exists at all (checked first by `_create_post_processor`). -/
structure HooksOptions where
  hasMdformat : Bool := false
  api_post_command : PyVal := .vNone
  api_timeout : PyVal := .vNone
  api_strict : PyVal := .vNone
  plugin_post_command : PyVal := .vNone
  plugin_timeout : PyVal := .vNone
  plugin_strict : PyVal := .vNone
deriving DecidableEq, Repr

/-- `get_conf` from `mdformat_hooks/_helpers.py`: the API value when it is
not `None`, otherwise the plugin value. -/
def get_conf (api plugin : PyVal) : PyVal :=
  if api ≠ .vNone then api else plugin

/-- The processor configuration captured by the closure
`_create_post_processor` builds: the raw `post_command`, the resolved
`timeout` (`get_conf(...) or 30`) and the resolved `strict`
(`get_conf(...) or False`). -/
structure ProcessorCfg where
  post_command : PyVal
  timeout : PyVal
  strict : PyVal
deriving DecidableEq, Repr

/-- `_create_post_processor`: `None` when the options carry no `"mdformat"`
key or no truthy post command, otherwise the captured configuration. -/
def _create_post_processor (o : HooksOptions) : Option ProcessorCfg :=
  if !o.hasMdformat then none
  else
    let post_command := get_conf o.api_post_command o.plugin_post_command
    let timeout :=
      let t := get_conf o.api_timeout o.plugin_timeout
      if t.truthy then t else .vInt 30
    let strict :=
      let s := get_conf o.api_strict o.plugin_strict
      if s.truthy then s else .vBool false
    if post_command.truthy then some ⟨post_command, timeout, strict⟩ else none

/-- The body of the `processor` closure:
`_run_shell_command(text, str(post_command), int(timeout),
strict=bool(strict))`; `int(timeout)` can raise `ValueError`. -/
def runProcessor (sh : ShellOracle) (p : ProcessorCfg) (text : String) :
    Except HookError String :=
  match pyInt p.timeout with
  | .error _ => .error .valueError
  | .ok t =>
    _run_shell_command sh text (some (pyStr p.post_command)) t p.strict.truthy

/-- `_dynamic_postprocessor`: a pass-through for every node other than the
document root; on the document root it builds the processor from the options
and applies it, or passes the text through when there is none. -/
def _dynamic_postprocessor (sh : ShellOracle) (nodeType : String)
    (o : HooksOptions) (text : String) : Except HookError String :=
  if nodeType ≠ "document" then .ok text
  else
    match _create_post_processor o with
    | some p => runProcessor sh p text
    | none => .ok text

/-! ## Helper lemmas -/

/-- A string with an empty character list is the empty string. -/
theorem str_eq_empty_of_data_nil (s : String) (h : s.data = []) : s = "" := by
  cases s with
  | mk d => cases h; rfl

/-- `split("\n")` never yields an empty list of lines. -/
theorem splitNl_ne_nil (l : List Char) : splitNl l ≠ [] := by
  induction l with
  | nil => simp [splitNl]
  | cons c rest ih =>
    simp only [splitNl]
    split
    · simp
    · cases h : splitNl rest <;> simp

/-- `"\n".join` undoes `split("\n")`. -/
theorem joinNl_splitNl (l : List Char) : joinNl (splitNl l) = l := by
  induction l with
  | nil => rfl
  | cons c rest ih =>
    simp only [splitNl]
    by_cases hc : c = '\n'
    · subst hc
      simp only [if_pos rfl]
      cases h : splitNl rest with
      | nil => exact absurd h (splitNl_ne_nil rest)
      | cons y t =>
        rw [h] at ih
        simp [joinNl, ih]
    · simp only [if_neg hc]
      cases h : splitNl rest with
      | nil => exact absurd h (splitNl_ne_nil rest)
      | cons y t =>
        rw [h] at ih
        cases t with
        | nil =>
          simp [joinNl] at ih ⊢
          exact ih
        | cons z t2 =>
          simp [joinNl] at ih ⊢
          exact ih

/-- Splitting at an explicit newline splits the surrounding pieces. -/
theorem splitNl_append_newline (x y : List Char) :
    splitNl (x ++ '\n' :: y) = splitNl x ++ splitNl y := by
  induction x with
  | nil => simp [splitNl]
  | cons c x ih =>
    by_cases hc : c = '\n'
    · subst hc
      simp [splitNl, ih]
    · cases h : splitNl x with
      | nil => exact absurd h (splitNl_ne_nil x)
      | cons h0 t0 =>
        simp only [List.cons_append, splitNl, if_neg hc, h, List.append_eq]
        rw [ih, h]
        simp

/-- A newline-free piece splits into a single line. -/
theorem splitNl_of_no_newline (x : List Char) (h : '\n' ∉ x) : splitNl x = [x] := by
  induction x with
  | nil => rfl
  | cons c rest ih =>
    have hc : ¬ c = '\n' := fun he => h (he ▸ List.mem_cons_self c rest)
    have hr : '\n' ∉ rest := fun hm => h (List.mem_cons_of_mem c hm)
    simp [splitNl, if_neg hc, ih hr]

/-- A backtick is not Python whitespace. -/
theorem isPySpace_btick : isPySpace btick = false := by decide

/-- A line starting with three backticks passes `startswith("```")`. -/
theorem startsFence_bbb (l : List Char) :
    startsFence (btick :: btick :: btick :: l) = true := by
  simp [startsFence]

/-- A list ending in `"\n"` passes `endswith("\n")`. -/
theorem endsNl_append_nl (l : List Char) : endsNl (l ++ ['\n']) = true := by
  simp [endsNl, List.getLast?_concat]

/-- Stripping does nothing to a trailing backtick. -/
theorem stripTrail (l : List Char) :
    (((l ++ [btick]) ++ ['\n']).reverse.dropWhile isPySpace).reverse =
      l ++ [btick] := by
  have h1 : ((l ++ [btick]) ++ ['\n']).reverse = '\n' :: btick :: l.reverse := by
    simp
  rw [h1, List.dropWhile_cons_of_pos (by decide),
    List.dropWhile_cons_of_neg (by simp [isPySpace_btick])]
  simp

/-- `str.strip()` on the fenced wrap removes exactly the final newline. -/
theorem pyStripL_fencewrap (mid : List Char) :
    pyStripL ((btick :: mid) ++ [btick] ++ ['\n']) = (btick :: mid) ++ [btick] := by
  unfold pyStripL
  rw [show (btick :: mid) ++ [btick] ++ ['\n'] =
    btick :: (mid ++ [btick] ++ ['\n']) by simp]
  rw [List.dropWhile_cons_of_neg (by simp [isPySpace_btick])]
  rw [show btick :: (mid ++ [btick] ++ ['\n']) =
    ((btick :: mid) ++ [btick]) ++ ['\n'] by simp]
  exact stripTrail (btick :: mid)

/-- A line of the fence wrap other than the code contains no newline. -/
theorem no_newline_fenceline (L : List Char) (hL : '\n' ∉ L) :
    '\n' ∉ btick :: btick :: btick :: L := by
  intro hm
  rcases List.mem_cons.mp hm with h | hm
  · exact absurd h (by decide)
  rcases List.mem_cons.mp hm with h | hm
  · exact absurd h (by decide)
  rcases List.mem_cons.mp hm with h | hm
  · exact absurd h (by decide)
  exact hL hm

/-- Stripping the whole formatter output and removing the two fence lines
recovers exactly the lines of the original code, when the formatter returned
the fenced wrap verbatim. -/
theorem roundtrip_lines (L C : List Char) (hL : '\n' ∉ L) :
    dropCloseFence (dropOpenFence (splitNl (pyStripL
      (btick :: btick :: btick ::
        (L ++ '\n' :: (C ++ '\n' :: btick :: btick :: btick :: ['\n'])))))) =
      splitNl C := by
  have hshape : btick :: btick :: btick ::
      (L ++ '\n' :: (C ++ '\n' :: btick :: btick :: btick :: ['\n'])) =
      (btick :: (btick :: btick ::
        (L ++ '\n' :: (C ++ '\n' :: [btick, btick])))) ++ [btick] ++ ['\n'] := by
    simp
  rw [hshape, pyStripL_fencewrap]
  have hshape2 : (btick :: (btick :: btick ::
      (L ++ '\n' :: (C ++ '\n' :: [btick, btick])))) ++ [btick] =
      (btick :: btick :: btick :: L) ++ '\n' ::
        (C ++ '\n' :: [btick, btick, btick]) := by
    simp
  rw [hshape2, splitNl_append_newline, splitNl_append_newline,
    splitNl_of_no_newline _ (no_newline_fenceline L hL),
    splitNl_of_no_newline [btick, btick, btick] (by decide)]
  simp only [List.singleton_append, dropOpenFence, startsFence_bbb, if_pos]
  unfold dropCloseFence
  rw [show splitNl C ++ [[btick, btick, btick]] =
    splitNl C ++ [[btick, btick, btick]] from rfl, List.getLast?_concat]
  simp only [startsFence_bbb, if_pos, List.dropLast_concat]

/-- Stripping the fences off a verbatim-returned fenced wrap recovers the
original code exactly. -/
theorem roundtrip_wrap (language code : String) (hnl : '\n' ∉ language.data) :
    joinNl (dropCloseFence (dropOpenFence (splitNl (pyStripL
      (("```" ++ language ++ "\n" ++ code ++ "\n```\n").data))))) = code.data := by
  have hd : ("```" ++ language ++ "\n" ++ code ++ "\n```\n").data =
      btick :: btick :: btick :: (language.data ++ '\n' ::
        (code.data ++ '\n' :: btick :: btick :: btick :: ['\n'])) := by
    show "```".data ++ language.data ++ "\n".data ++ code.data ++
      "\n```\n".data = _
    rw [show "```".data = [btick, btick, btick] by decide,
      show "\n".data = ['\n'] from rfl,
      show "\n```\n".data = '\n' :: btick :: btick :: btick :: ['\n'] by decide]
    simp
  rw [hd, show (joinNl (dropCloseFence (dropOpenFence (splitNl (pyStripL
      (btick :: btick :: btick :: (language.data ++ '\n' ::
        (code.data ++ '\n' :: btick :: btick :: btick :: ['\n'])))))))) =
      joinNl (splitNl code.data) from
    congrArg joinNl (roundtrip_lines language.data code.data hnl),
    joinNl_splitNl]

/-- C5: wrapping code in a fence tagged with the language, piping it through
a formatter that returns the fenced block verbatim, and stripping the fences
yields back exactly the original code; and whenever the original code ends
with a newline, any successfully formatted output also ends with a newline
(one is appended if the formatter output dropped it). -/
theorem mdsf_fence_roundtrip :
    (∀ (cfg : MdsfConfig) (env : MdsfEnv) (code language : String),
      code ≠ "" →
      cfg.is_language_enabled language = true →
      '\n' ∉ language.data →
      env.binFound = true →
      (∀ args s t, env.run args s t = .success s) →
      _format_code_with_mdsf env cfg code language = .ok code) ∧
    (∀ (env : MdsfEnv) (cfg : MdsfConfig) (code language out : String),
      endsNl code.data = true →
      _format_code_with_mdsf env cfg code language = .ok out →
      endsNl out.data = true) := by
  constructor
  · intro cfg env code language hne hen hnl hbin hrun
    have hdata : ¬ code.data = [] := fun h => hne (str_eq_empty_of_data_nil code h)
    unfold _format_code_with_mdsf
    rw [if_neg hdata, hen, hbin]
    simp only [Bool.not_true, Bool.false_eq_true, if_false]
    rw [hrun]
    simp only [roundtrip_wrap language code hnl]
    have hcond : (endsNl code.data && !endsNl code.data) = false := by
      cases h : endsNl code.data <;> simp [h]
    rw [hcond]
    simp
  · intro env cfg code language out hu heq
    unfold _format_code_with_mdsf at heq
    by_cases h1 : code.data = []
    · rw [if_pos h1] at heq
      cases heq
      exact hu
    rw [if_neg h1] at heq
    by_cases h2 : cfg.is_language_enabled language = true
    · rw [h2] at heq
      simp only [Bool.not_true, Bool.false_eq_true, if_false] at heq
      by_cases h3 : env.binFound = true
      · rw [h3] at heq
        simp only [Bool.not_true, Bool.false_eq_true, if_false] at heq
        cases hr : env.run (["mdsf", "format", "--stdin"] ++
            (if cfg.config_path.truthy then ["--config", pyStr cfg.config_path]
             else []))
            ("```" ++ language ++ "\n" ++ code ++ "\n```\n") cfg.timeout with
        | success stdout =>
          rw [hr] at heq
          simp only at heq
          by_cases h4 :
              endsNl (joinNl (dropCloseFence (dropOpenFence
                (splitNl (pyStripL stdout.data))))) = true
          · rw [hu, h4] at heq
            simp only [Bool.not_true, Bool.and_false, Bool.false_eq_true,
              if_false] at heq
            cases heq
            exact h4
          · have h4f : endsNl (joinNl (dropCloseFence (dropOpenFence
                (splitNl (pyStripL stdout.data))))) = false :=
              Bool.eq_false_iff.mpr h4
            rw [hu, h4f] at heq
            simp only [Bool.not_false, Bool.and_true, if_true] at heq
            cases heq
            exact endsNl_append_nl _
        | calledProcessError stderr =>
          rw [hr] at heq
          simp only at heq
          cases hf : cfg.fail_on_error with
          | true =>
            rw [hf] at heq
            simp only [if_true] at heq
            cases heq
          | false =>
            rw [hf] at heq
            simp only [Bool.false_eq_true, if_false] at heq
            cases heq
            exact hu
        | timedOut =>
          rw [hr] at heq
          simp only at heq
          cases hf : cfg.fail_on_error with
          | true =>
            rw [hf] at heq
            simp only [if_true] at heq
            cases heq
          | false =>
            rw [hf] at heq
            simp only [Bool.false_eq_true, if_false] at heq
            cases heq
            exact hu
      · have h3f : env.binFound = false := Bool.eq_false_iff.mpr h3
        rw [h3f] at heq
        simp only [Bool.not_false, if_true] at heq
        cases hf : cfg.fail_on_error with
        | true =>
          rw [hf] at heq
          simp only [if_true] at heq
          cases heq
        | false =>
          rw [hf] at heq
          simp only [Bool.false_eq_true, if_false] at heq
          cases heq
          exact hu
    · have h2f : cfg.is_language_enabled language = false := Bool.eq_false_iff.mpr h2
      rw [h2f] at heq
      simp only [Bool.not_false, if_true] at heq
      cases heq
      exact hu

/-- C5 witness: the code `"x=1"` round-trips to exactly `"x=1"` through a
verbatim formatter, and `"x=1\n"` keeps its trailing newline. -/
theorem mdsf_fence_roundtrip_witness :
    _format_code_with_mdsf
        { binFound := true, run := fun _ s _ => .success s } mdsfDefault
        "x=1" "python" = .ok "x=1" ∧
      _format_code_with_mdsf
        { binFound := true, run := fun _ s _ => .success s } mdsfDefault
        "x=1\n" "python" = .ok "x=1\n" ∧
      endsNl ("x=1\n").data = true := by
  have h1 := mdsf_fence_roundtrip.1 mdsfDefault
    { binFound := true, run := fun _ s _ => .success s } "x=1" "python"
    (by decide) (by decide) (by decide) rfl (fun _ _ _ => rfl)
  have h2 := mdsf_fence_roundtrip.1 mdsfDefault
    { binFound := true, run := fun _ s _ => .success s } "x=1\n" "python"
    (by decide) (by decide) (by decide) rfl (fun _ _ _ => rfl)
  have h3 := mdsf_fence_roundtrip.2
    { binFound := true, run := fun _ s _ => .success s } mdsfDefault
    "x=1\n" "python" "x=1\n" (by decide) h2
  exact ⟨h1, h2, h3⟩

/-- C3: when the mdsf binary cannot be located and `fail_on_error` is false
the per-block formatter returns the code unchanged without raising; the
missing binary is fatal only when `fail_on_error` is true, in which case the
`RuntimeError` of `_find_mdsf_bin` propagates. -/
theorem mdsf_missing_binary_policy :
    (∀ (env : MdsfEnv) (cfg : MdsfConfig) (code language : String),
      env.binFound = false → cfg.fail_on_error = false →
      _format_code_with_mdsf env cfg code language = .ok code) ∧
    (∀ (env : MdsfEnv) (cfg : MdsfConfig) (code language : String),
      env.binFound = false → cfg.fail_on_error = true →
      code ≠ "" → cfg.is_language_enabled language = true →
      _format_code_with_mdsf env cfg code language =
        .error (.toolMissing mdsfMissingMsg)) := by
  constructor
  · intro env cfg code language hb hf
    unfold _format_code_with_mdsf
    by_cases h1 : code.data = []
    · rw [if_pos h1]
    rw [if_neg h1]
    by_cases h2 : cfg.is_language_enabled language = true
    · rw [h2, hb, hf]
      simp
    · have h2f : cfg.is_language_enabled language = false :=
        Bool.eq_false_iff.mpr h2
      rw [h2f]
      simp
  · intro env cfg code language hb hf hne hen
    have hdata : ¬ code.data = [] := fun h => hne (str_eq_empty_of_data_nil code h)
    unfold _format_code_with_mdsf
    rw [if_neg hdata, hen, hb, hf]
    simp

/-- C3 witness: the spec scenario, a `"x = 1\n"` python block with the
binary absent: unchanged under `fail_on_error = false`, fatal under
`fail_on_error = true`. -/
theorem mdsf_missing_binary_policy_witness :
    _format_code_with_mdsf { binFound := false, run := fun _ _ _ => .timedOut }
        mdsfDefault "x = 1\n" "python" = .ok "x = 1\n" ∧
      _format_code_with_mdsf { binFound := false, run := fun _ _ _ => .timedOut }
        { mdsfDefault with fail_on_error := true } "x = 1\n" "python" =
        .error (.toolMissing mdsfMissingMsg) := by
  exact ⟨mdsf_missing_binary_policy.1 _ mdsfDefault "x = 1\n" "python" rfl rfl,
    mdsf_missing_binary_policy.2 _ _ "x = 1\n" "python" rfl rfl (by decide)
      (by decide)⟩

/-- C6: a block whose language fails the filter is returned byte-identical
for every possible external world (so no process is consulted); an empty
`enabledLanguages` set enables every language; with the filter
`{"python"}` a javascript block is unchanged for every external world while
a python block is transformed by a formatter that rewrites it. -/
theorem mdsf_language_filter :
    (∀ (env : MdsfEnv) (cfg : MdsfConfig) (code language : String),
      cfg.is_language_enabled language = false →
      _format_code_with_mdsf env cfg code language = .ok code) ∧
    (∀ (cfg : MdsfConfig), cfg.languages = [] →
      ∀ language, cfg.is_language_enabled language = true) ∧
    (∀ (env : MdsfEnv) (code : String),
      _format_code_with_mdsf env { languages := ["python"] } code
        "javascript" = .ok code) ∧
    (_format_code_with_mdsf
        { binFound := true, run := fun _ _ _ => .success "```python\ny = 2\n```\n" }
        { languages := ["python"] } "x = 1\n" "python" = .ok "y = 2\n") := by
  refine ⟨?_, ?_, ?_, ?_⟩
  · intro env cfg code language hdis
    unfold _format_code_with_mdsf
    by_cases h1 : code.data = []
    · rw [if_pos h1]
    rw [if_neg h1, hdis]
    simp
  · intro cfg hcfg language
    unfold MdsfConfig.is_language_enabled
    rw [if_pos hcfg]
  · intro env code
    unfold _format_code_with_mdsf
    by_cases h1 : code.data = []
    · rw [if_pos h1]
    rw [if_neg h1]
    rw [show MdsfConfig.is_language_enabled { languages := ["python"] }
      "javascript" = false by decide]
    simp
  · rfl

/-- C6 witness: with the filter `{"python"}` the javascript block
`"x = 1\n"` is unchanged even for an external formatter that would rewrite
it. -/
theorem mdsf_language_filter_witness :
    _format_code_with_mdsf
        { binFound := true, run := fun _ _ _ => .success "```python\ny = 2\n```\n" }
        { languages := ["python"] } "x = 1\n" "javascript" = .ok "x = 1\n" ∧
      MdsfConfig.is_language_enabled { languages := ["python"] } "javascript" =
        false ∧
      MdsfConfig.is_language_enabled mdsfDefault "javascript" = true := by
  refine ⟨mdsf_language_filter.1 _ _ "x = 1\n" "javascript" (by decide),
    by decide, mdsf_language_filter.2.1 mdsfDefault rfl "javascript"⟩

/-- C4: for every run of the shell-command runner whose command exits
non-zero or times out, non-strict mode returns the original text unchanged
and strict mode raises the error of the corresponding raise site — the
command-failed error carrying the exit code and captured stderr, with a
message containing the exit code and the literal command string, and the
timed-out error on timeout. -/
theorem hooks_runner_failure_classification :
    (∀ (sh : ShellOracle) (text cmd : String) (timeout rc : Int)
        (stdout stderr : String),
      cmd ≠ "" → rc ≠ 0 →
      sh cmd text timeout = .completed rc stdout stderr →
      _run_shell_command sh text (some cmd) timeout false = .ok text ∧
      _run_shell_command sh text (some cmd) timeout true =
        .error (.commandFailed rc stderr (hookFailMsg rc cmd stderr)) ∧
      (∃ a b : String,
        hookFailMsg rc cmd stderr =
          a ++ toString rc ++ b ++ cmd ++ "\nstderr: " ++ stderr)) ∧
    (∀ (sh : ShellOracle) (text cmd : String) (timeout : Int),
      cmd ≠ "" →
      sh cmd text timeout = .timedOut →
      _run_shell_command sh text (some cmd) timeout false = .ok text ∧
      _run_shell_command sh text (some cmd) timeout true =
        .error (.commandTimedOut (hookTimeoutMsg timeout cmd))) := by
  constructor
  · intro sh text cmd timeout rc stdout stderr hc hrc hsh
    refine ⟨?_, ?_, ?_⟩
    · unfold _run_shell_command
      simp only []
      rw [if_neg hc, hsh]
      simp only []
      rw [if_neg hrc]
      simp
    · unfold _run_shell_command
      simp only []
      rw [if_neg hc, hsh]
      simp only []
      rw [if_neg hrc]
      simp
    · refine ⟨"Command failed with exit code ", ": ", ?_⟩
      unfold hookFailMsg
      simp only [String.append_assoc]
      rw [← String.append_assoc "\n" "stderr: " stderr,
        show ("\n" ++ "stderr: " : String) = "\nstderr: " from rfl]
  · intro sh text cmd timeout hc hsh
    constructor
    · unfold _run_shell_command
      simp only []
      rw [if_neg hc, hsh]
      simp
    · unfold _run_shell_command
      simp only []
      rw [if_neg hc, hsh]
      simp

/-- C4 witness: the spec scenario, a command that always exits 1 with
stderr `"boom"`: unchanged text when non-strict, the classified error in
strict mode, and a timing-out command raising the timed-out error. -/
theorem hooks_runner_failure_classification_witness :
    _run_shell_command (fun _ _ _ => .completed 1 "" "boom") "doc"
        (some "false") 30 false = .ok "doc" ∧
      _run_shell_command (fun _ _ _ => .completed 1 "" "boom") "doc"
        (some "false") 30 true =
        .error (.commandFailed 1 "boom" (hookFailMsg 1 "false" "boom")) ∧
      (∃ a b : String,
        hookFailMsg 1 "false" "boom" =
          a ++ toString (1 : Int) ++ b ++ "false" ++ "\nstderr: " ++ "boom") ∧
      _run_shell_command (fun _ _ _ => .timedOut) "doc"
        (some "sleep 60") 1 true =
        .error (.commandTimedOut (hookTimeoutMsg 1 "sleep 60")) := by
  have h1 := hooks_runner_failure_classification.1
    (fun _ _ _ => .completed 1 "" "boom") "doc" "false" 30 1 "" "boom"
    (by decide) (by decide) rfl
  have h2 := hooks_runner_failure_classification.2
    (fun _ _ _ => .timedOut) "doc" "sleep 60" 1 (by decide) rfl
  exact ⟨h1.1, h1.2.1, h1.2.2, h2.2⟩

/-- C8: the runner with an unset or empty command is the identity on the
text for every oracle, timeout and strictness; consequently, with a no-op
configuration (no truthy post command from either options layer) the
document pipeline returns its input, and a second pass composes to the same
result (idempotence). -/
theorem hooks_noop_identity_idempotent :
    (∀ (sh : ShellOracle) (text : String) (timeout : Int) (strict : Bool),
      _run_shell_command sh text none timeout strict = .ok text ∧
      _run_shell_command sh text (some "") timeout strict = .ok text) ∧
    (∀ (sh : ShellOracle) (nodeType : String) (o : HooksOptions)
        (text : String),
      (get_conf o.api_post_command o.plugin_post_command).truthy = false →
      _dynamic_postprocessor sh nodeType o text = .ok text ∧
      (_dynamic_postprocessor sh nodeType o text).bind
          (_dynamic_postprocessor sh nodeType o) =
        _dynamic_postprocessor sh nodeType o text) := by
  have hrun : ∀ (sh : ShellOracle) (text : String) (timeout : Int)
      (strict : Bool),
      _run_shell_command sh text none timeout strict = .ok text ∧
      _run_shell_command sh text (some "") timeout strict = .ok text := by
    intro sh text timeout strict
    exact ⟨rfl, by unfold _run_shell_command; simp⟩
  refine ⟨hrun, ?_⟩
  intro sh nodeType o text hpost
  have hpipe : _dynamic_postprocessor sh nodeType o text = .ok text := by
    unfold _dynamic_postprocessor
    by_cases hn : nodeType ≠ "document"
    · rw [if_pos hn]
    rw [if_neg hn]
    have hproc : _create_post_processor o = none := by
      unfold _create_post_processor
      cases hm : o.hasMdformat with
      | false => simp
      | true => simp [hpost]
    rw [hproc]
  exact ⟨hpipe, by rw [hpipe]; exact hpipe⟩

/-- C8 witness: a concrete no-op configuration (options present but with no
post command) leaves concrete text unchanged and is idempotent. -/
theorem hooks_noop_identity_idempotent_witness :
    _dynamic_postprocessor (fun _ _ _ => .completed 1 "" "boom") "document"
        { hasMdformat := true } "# Hello\n" = .ok "# Hello\n" ∧
      (_dynamic_postprocessor (fun _ _ _ => .completed 1 "" "boom") "document"
          { hasMdformat := true } "# Hello\n").bind
        (_dynamic_postprocessor (fun _ _ _ => .completed 1 "" "boom") "document"
          { hasMdformat := true }) =
      _dynamic_postprocessor (fun _ _ _ => .completed 1 "" "boom") "document"
        { hasMdformat := true } "# Hello\n" := by
  exact hooks_noop_identity_idempotent.2 (fun _ _ _ => .completed 1 "" "boom")
    "document" { hasMdformat := true } "# Hello\n" (by decide)

/-- C2 counterexample: the hooks plugin registers no `--pre-command` CLI
flag — the argument group holds exactly `--post-command`, `--timeout` and
`--strict-hooks` — so a pre-command is not configurable and no pre-command
step exists to run before the post-command. -/
theorem hooks_no_pre_command_flag :
    (add_cli_argument_group.map CliArg.flag).contains "--pre-command" = false ∧
      add_cli_argument_group.map CliArg.flag =
        ["--post-command", "--timeout", "--strict-hooks"] := by
  exact ⟨by decide, by decide⟩

/-- C2 amended: the hooks plugin supports only a post-command.  The
post-command is configurable via `--post-command` and is run on the document
text by the post-processing step; when it is absent (no truthy post command
in the options), the step is skipped rather than errored; no `--pre-command`
flag exists. -/
theorem hooks_post_command_only :
    ((add_cli_argument_group.map CliArg.flag).contains "--pre-command" =
        false) ∧
    ((add_cli_argument_group.map CliArg.flag).contains "--post-command" =
        true) ∧
    (∀ (sh : ShellOracle) (text stdout stderr cmd : String),
      cmd ≠ "" →
      sh cmd text 30 = .completed 0 stdout stderr →
      _dynamic_postprocessor sh "document"
        { hasMdformat := true, api_post_command := .vStr cmd } text =
        .ok stdout) ∧
    (∀ (sh : ShellOracle) (o : HooksOptions) (text : String),
      get_conf o.api_post_command o.plugin_post_command = .vNone →
      _dynamic_postprocessor sh "document" o text = .ok text) := by
  refine ⟨by decide, by decide, ?_, ?_⟩
  · intro sh text stdout stderr cmd hc hsh
    unfold _dynamic_postprocessor
    rw [if_neg (by simp)]
    have hproc : _create_post_processor
        { hasMdformat := true, api_post_command := .vStr cmd } =
        some ⟨.vStr cmd, .vInt 30, .vBool false⟩ := by
      unfold _create_post_processor get_conf
      have hne : (PyVal.vStr cmd) ≠ .vNone := by simp
      simp only [hne, if_pos, Bool.not_true, Bool.false_eq_true, if_false,
        if_true, if_neg]
      simp [PyVal.truthy, hc]
    rw [hproc]
    unfold runProcessor
    simp only [pyInt]
    unfold _run_shell_command
    simp only [pyStr, PyVal.truthy]
    rw [if_neg hc, hsh]
    simp
  · intro sh o text hpost
    unfold _dynamic_postprocessor
    rw [if_neg (by simp)]
    have hproc : _create_post_processor o = none := by
      unfold _create_post_processor
      cases hm : o.hasMdformat with
      | false => simp
      | true => simp [hpost, PyVal.truthy]
    rw [hproc]

/-- C2 amended witness: a pass-through post-command replaces the document
with its stdout, and a configuration without a post command passes the text
through unchanged. -/
theorem hooks_post_command_only_witness :
    _dynamic_postprocessor (fun _ s _ => .completed 0 s "") "document"
        { hasMdformat := true, api_post_command := .vStr "cat" }
        "Hello, World!" = .ok "Hello, World!" ∧
      _dynamic_postprocessor (fun _ s _ => .completed 0 s "") "document"
        { hasMdformat := true } "Hello, World!" = .ok "Hello, World!" := by
  exact ⟨hooks_post_command_only.2.2.1 (fun _ s _ => .completed 0 s "")
      "Hello, World!" "Hello, World!" "" "cat" (by decide) rfl,
    hooks_post_command_only.2.2.2 (fun _ s _ => .completed 0 s "")
      { hasMdformat := true } "Hello, World!" (by decide)⟩

/-! ## Lemmas about the configuration steps -/

/-- Inversion for `Except.bind` returning `ok`. -/
theorem except_bind_ok {α β ε : Type} (x : Except ε α) (f : α → Except ε β)
    (b : β) (h : x.bind f = .ok b) : ∃ a, x = .ok a ∧ f a = .ok b := by
  cases x with
  | ok a => exact ⟨a, rfl, h⟩
  | error e => simp [Except.bind] at h

/-- Inversion for `Except.map` returning `ok`. -/
theorem except_map_ok {α β ε : Type} (x : Except ε α) (f : α → β) (b : β)
    (h : x.map f = .ok b) : ∃ a, x = .ok a ∧ f a = b := by
  cases x with
  | ok a =>
    refine ⟨a, rfl, ?_⟩
    simpa [Except.map] using h
  | error e => simp [Except.map] at h

namespace MdsfConfig

theorem setConfigStep_timeout (v : PyVal) (c : MdsfConfig) :
    (setConfigStep v c).timeout = c.timeout := by
  unfold setConfigStep; split <;> rfl

theorem setConfigStep_languages (v : PyVal) (c : MdsfConfig) :
    (setConfigStep v c).languages = c.languages := by
  unfold setConfigStep; split <;> rfl

theorem setConfigStep_fail (v : PyVal) (c : MdsfConfig) :
    (setConfigStep v c).fail_on_error = c.fail_on_error := by
  unfold setConfigStep; split <;> rfl

theorem setConfigStep_id (v : PyVal) (c : MdsfConfig) (h : v.truthy = false) :
    setConfigStep v c = c := by
  unfold setConfigStep; rw [h]; simp

theorem setFailStep_timeout (v : PyVal) (c : MdsfConfig) :
    (setFailStep v c).timeout = c.timeout := by
  unfold setFailStep; split <;> rfl

theorem setFailStep_config (v : PyVal) (c : MdsfConfig) :
    (setFailStep v c).config_path = c.config_path := by
  unfold setFailStep; split <;> rfl

theorem setFailStep_languages (v : PyVal) (c : MdsfConfig) :
    (setFailStep v c).languages = c.languages := by
  unfold setFailStep; split <;> rfl

theorem setFailStep_id (v : PyVal) (c : MdsfConfig) (h : v.truthy = false) :
    setFailStep v c = c := by
  unfold setFailStep; rw [h]; simp

theorem setTimeoutStep_frame (v : PyVal) (c c' : MdsfConfig)
    (h : setTimeoutStep v c = .ok c') :
    c'.config_path = c.config_path ∧ c'.languages = c.languages ∧
      c'.fail_on_error = c.fail_on_error := by
  unfold setTimeoutStep at h
  by_cases ht : v.truthy = true
  · rw [ht] at h
    simp only [if_true] at h
    cases hp : pyInt v with
    | ok n =>
      rw [hp] at h
      simp only [Except.map, Except.ok.injEq] at h
      subst h
      exact ⟨rfl, rfl, rfl⟩
    | error e =>
      rw [hp] at h
      simp [Except.map] at h
  · rw [Bool.eq_false_iff.mpr ht] at h
    simp only [Bool.false_eq_true, if_false, Except.ok.injEq] at h
    subst h
    exact ⟨rfl, rfl, rfl⟩

theorem setTimeoutStep_id (v : PyVal) (c : MdsfConfig) (h : v.truthy = false) :
    setTimeoutStep v c = .ok c := by
  unfold setTimeoutStep; rw [h]; simp

theorem setTimeoutStep_pos (v : PyVal) (c c' : MdsfConfig)
    (hc : 0 < c.timeout) (hv : ∀ n, pyInt v = .ok n → 0 < n)
    (h : setTimeoutStep v c = .ok c') : 0 < c'.timeout := by
  unfold setTimeoutStep at h
  by_cases ht : v.truthy = true
  · rw [ht] at h
    simp only [if_true] at h
    cases hp : pyInt v with
    | ok n =>
      rw [hp] at h
      simp only [Except.map, Except.ok.injEq] at h
      subst h
      exact hv n hp
    | error e =>
      rw [hp] at h
      simp [Except.map] at h
  · rw [Bool.eq_false_iff.mpr ht] at h
    simp only [Bool.false_eq_true, if_false, Except.ok.injEq] at h
    subst h
    exact hc

theorem setLanguagesApiStep_frame (v : PyVal) (c c' : MdsfConfig)
    (h : setLanguagesApiStep v c = .ok c') :
    c'.config_path = c.config_path ∧ c'.timeout = c.timeout ∧
      c'.fail_on_error = c.fail_on_error := by
  unfold setLanguagesApiStep at h
  by_cases ht : v.truthy = true
  · rw [ht] at h
    simp only [if_true] at h
    cases hp : pySet v with
    | ok ls =>
      rw [hp] at h
      simp only [Except.map, Except.ok.injEq] at h
      subst h
      exact ⟨rfl, rfl, rfl⟩
    | error e =>
      rw [hp] at h
      simp [Except.map] at h
  · rw [Bool.eq_false_iff.mpr ht] at h
    simp only [Bool.false_eq_true, if_false, Except.ok.injEq] at h
    subst h
    exact ⟨rfl, rfl, rfl⟩

theorem setLanguagesApiStep_id (v : PyVal) (c : MdsfConfig)
    (h : v.truthy = false) : setLanguagesApiStep v c = .ok c := by
  unfold setLanguagesApiStep; rw [h]; simp

theorem setLanguagesPluginStep_frame (v : PyVal) (c c' : MdsfConfig)
    (h : setLanguagesPluginStep v c = .ok c') :
    c'.config_path = c.config_path ∧ c'.timeout = c.timeout ∧
      c'.fail_on_error = c.fail_on_error := by
  unfold setLanguagesPluginStep at h
  by_cases ht : v.truthy = true
  · rw [ht] at h
    simp only [if_true] at h
    cases v with
    | vStr s =>
      simp only [Except.ok.injEq] at h
      subst h
      exact ⟨rfl, rfl, rfl⟩
    | vStrList xs =>
      simp only [pySet, Except.map, Except.ok.injEq] at h
      subst h
      exact ⟨rfl, rfl, rfl⟩
    | vNone => simp [PyVal.truthy] at ht
    | vInt n => simp [pySet, Except.map] at h
    | vBool b => simp [pySet, Except.map] at h
  · rw [Bool.eq_false_iff.mpr ht] at h
    simp only [Bool.false_eq_true, if_false, Except.ok.injEq] at h
    subst h
    exact ⟨rfl, rfl, rfl⟩

theorem setLanguagesPluginStep_id (v : PyVal) (c : MdsfConfig)
    (h : v.truthy = false) : setLanguagesPluginStep v c = .ok c := by
  unfold setLanguagesPluginStep; rw [h]; simp

end MdsfConfig

theorem cliConfigStep_timeout (o : MdsfOptions) (c : MdsfConfig) :
    (cliConfigStep o c).timeout = c.timeout := by
  unfold cliConfigStep; split <;> rfl

theorem cliConfigStep_languages (o : MdsfOptions) (c : MdsfConfig) :
    (cliConfigStep o c).languages = c.languages := by
  unfold cliConfigStep; split <;> rfl

theorem cliConfigStep_fail (o : MdsfOptions) (c : MdsfConfig) :
    (cliConfigStep o c).fail_on_error = c.fail_on_error := by
  unfold cliConfigStep; split <;> rfl

theorem cliConfigStep_id (o : MdsfOptions) (c : MdsfConfig)
    (h : (o.cli_mdsf_config.truthy && isVStr o.cli_mdsf_config) = false) :
    cliConfigStep o c = c := by
  unfold cliConfigStep; rw [h]; simp

theorem cliTimeoutStep_config (o : MdsfOptions) (c : MdsfConfig) :
    (cliTimeoutStep o c).config_path = c.config_path := by
  unfold cliTimeoutStep; split <;> rfl

theorem cliTimeoutStep_languages (o : MdsfOptions) (c : MdsfConfig) :
    (cliTimeoutStep o c).languages = c.languages := by
  unfold cliTimeoutStep; split <;> rfl

theorem cliTimeoutStep_fail (o : MdsfOptions) (c : MdsfConfig) :
    (cliTimeoutStep o c).fail_on_error = c.fail_on_error := by
  unfold cliTimeoutStep; split <;> rfl

theorem cliTimeoutStep_id (o : MdsfOptions) (c : MdsfConfig)
    (h : (o.cli_mdsf_timeout.truthy && isIntLike o.cli_mdsf_timeout) = false) :
    cliTimeoutStep o c = c := by
  unfold cliTimeoutStep; rw [h]; simp

theorem cliLanguagesStep_config (o : MdsfOptions) (c : MdsfConfig) :
    (cliLanguagesStep o c).config_path = c.config_path := by
  unfold cliLanguagesStep; split <;> rfl

theorem cliLanguagesStep_timeout (o : MdsfOptions) (c : MdsfConfig) :
    (cliLanguagesStep o c).timeout = c.timeout := by
  unfold cliLanguagesStep; split <;> rfl

theorem cliLanguagesStep_fail (o : MdsfOptions) (c : MdsfConfig) :
    (cliLanguagesStep o c).fail_on_error = c.fail_on_error := by
  unfold cliLanguagesStep; split <;> rfl

theorem cliLanguagesStep_id (o : MdsfOptions) (c : MdsfConfig)
    (h : (o.cli_mdsf_languages.truthy && isVStr o.cli_mdsf_languages) = false) :
    cliLanguagesStep o c = c := by
  unfold cliLanguagesStep; rw [h]; simp

theorem cliFailStep_config (o : MdsfOptions) (c : MdsfConfig) :
    (cliFailStep o c).config_path = c.config_path := by
  unfold cliFailStep; split <;> rfl

theorem cliFailStep_timeout (o : MdsfOptions) (c : MdsfConfig) :
    (cliFailStep o c).timeout = c.timeout := by
  unfold cliFailStep; split <;> rfl

theorem cliFailStep_languages (o : MdsfOptions) (c : MdsfConfig) :
    (cliFailStep o c).languages = c.languages := by
  unfold cliFailStep; split <;> rfl

theorem cliFailStep_id (o : MdsfOptions) (c : MdsfConfig)
    (h : (o.cli_mdsf_fail.truthy && isVBool o.cli_mdsf_fail) = false) :
    cliFailStep o c = c := by
  unfold cliFailStep; rw [h]; simp

namespace MdsfConfig

/-- Decomposition of a successful `update_from_options` run into its layer
steps. -/
theorem update_from_options_ok (c : MdsfConfig) (o : MdsfOptions)
    (c' : MdsfConfig) (h : update_from_options c o = .ok c') :
    ∃ c1 c2,
      setTimeoutStep o.api_timeout (setConfigStep o.api_config c) = .ok c1 ∧
      setLanguagesApiStep o.api_languages c1 = .ok c2 ∧
      ((o.plugin_present = false ∧ c' = setFailStep o.api_fail c2) ∨
       (o.plugin_present = true ∧ ∃ c4 c5,
         setTimeoutStep o.plugin_timeout
           (setConfigStep o.plugin_config (setFailStep o.api_fail c2)) =
             .ok c4 ∧
         setLanguagesPluginStep o.plugin_languages c4 = .ok c5 ∧
         c' = setFailStep o.plugin_fail c5)) := by
  unfold update_from_options at h
  obtain ⟨c1, h1, h⟩ := except_bind_ok _ _ _ h
  obtain ⟨c2, h2, h⟩ := except_bind_ok _ _ _ h
  simp only [] at h
  refine ⟨c1, c2, h1, h2, ?_⟩
  by_cases hp : o.plugin_present = true
  · rw [hp] at h
    simp only [if_true] at h
    obtain ⟨c4, h4, h⟩ := except_bind_ok _ _ _ h
    obtain ⟨c5, h5, h6⟩ := except_map_ok _ _ _ h
    exact Or.inr ⟨hp, c4, c5, h4, h5, h6.symm⟩
  · have hpf : o.plugin_present = false := Bool.eq_false_iff.mpr hp
    rw [hpf] at h
    simp only [Bool.false_eq_true, if_false, Except.ok.injEq] at h
    exact Or.inl ⟨hpf, h.symm⟩

/-- Frame: `update_from_options` leaves the timeout unchanged when neither
layer supplies a truthy timeout value. -/
theorem update_from_options_timeout_frame (c : MdsfConfig) (o : MdsfOptions)
    (c' : MdsfConfig) (h : update_from_options c o = .ok c')
    (hat : o.api_timeout.truthy = false)
    (hpt : o.plugin_present = true → o.plugin_timeout.truthy = false) :
    c'.timeout = c.timeout := by
  obtain ⟨c1, c2, h1, h2, hrest⟩ := update_from_options_ok c o c' h
  rw [setTimeoutStep_id _ _ hat] at h1
  simp only [Except.ok.injEq] at h1
  have hc1 : c1.timeout = c.timeout := by
    rw [← h1]; exact setConfigStep_timeout _ _
  have hc2 : c2.timeout = c1.timeout := (setLanguagesApiStep_frame _ _ _ h2).2.1
  rcases hrest with ⟨hpf, heq⟩ | ⟨hp, c4, c5, h4, h5, heq⟩
  · rw [heq, setFailStep_timeout, hc2, hc1]
  · rw [setTimeoutStep_id _ _ (hpt hp)] at h4
    simp only [Except.ok.injEq] at h4
    have hc4 : c4.timeout = c2.timeout := by
      rw [← h4, setConfigStep_timeout, setFailStep_timeout]
    have hc5 : c5.timeout = c4.timeout :=
      (setLanguagesPluginStep_frame _ _ _ h5).2.1
    rw [heq, setFailStep_timeout, hc5, hc4, hc2, hc1]

/-- Frame: `update_from_options` leaves the config path unchanged when
neither layer supplies a truthy value for it. -/
theorem update_from_options_config_frame (c : MdsfConfig) (o : MdsfOptions)
    (c' : MdsfConfig) (h : update_from_options c o = .ok c')
    (hac : o.api_config.truthy = false)
    (hpc : o.plugin_present = true → o.plugin_config.truthy = false) :
    c'.config_path = c.config_path := by
  obtain ⟨c1, c2, h1, h2, hrest⟩ := update_from_options_ok c o c' h
  rw [setConfigStep_id _ _ hac] at h1
  have hc1 : c1.config_path = c.config_path :=
    (setTimeoutStep_frame _ _ _ h1).1
  have hc2 : c2.config_path = c1.config_path :=
    (setLanguagesApiStep_frame _ _ _ h2).1
  rcases hrest with ⟨hpf, heq⟩ | ⟨hp, c4, c5, h4, h5, heq⟩
  · rw [heq, setFailStep_config, hc2, hc1]
  · rw [setConfigStep_id _ _ (hpc hp)] at h4
    have hc4 : c4.config_path = c2.config_path := by
      rw [(setTimeoutStep_frame _ _ _ h4).1, setFailStep_config]
    have hc5 : c5.config_path = c4.config_path :=
      (setLanguagesPluginStep_frame _ _ _ h5).1
    rw [heq, setFailStep_config, hc5, hc4, hc2, hc1]

/-- Frame: `update_from_options` leaves the language set unchanged when
neither layer supplies a truthy value for it. -/
theorem update_from_options_languages_frame (c : MdsfConfig) (o : MdsfOptions)
    (c' : MdsfConfig) (h : update_from_options c o = .ok c')
    (hal : o.api_languages.truthy = false)
    (hpl : o.plugin_present = true → o.plugin_languages.truthy = false) :
    c'.languages = c.languages := by
  obtain ⟨c1, c2, h1, h2, hrest⟩ := update_from_options_ok c o c' h
  have hc1 : c1.languages = c.languages := by
    rw [(setTimeoutStep_frame _ _ _ h1).2.1, setConfigStep_languages]
  rw [setLanguagesApiStep_id _ _ hal] at h2
  simp only [Except.ok.injEq] at h2
  have hc2 : c2.languages = c1.languages := by rw [← h2]
  rcases hrest with ⟨hpf, heq⟩ | ⟨hp, c4, c5, h4, h5, heq⟩
  · rw [heq, setFailStep_languages, hc2, hc1]
  · have hc4 : c4.languages = c2.languages := by
      rw [(setTimeoutStep_frame _ _ _ h4).2.1, setConfigStep_languages,
        setFailStep_languages]
    rw [setLanguagesPluginStep_id _ _ (hpl hp)] at h5
    simp only [Except.ok.injEq] at h5
    have hc5 : c5.languages = c4.languages := by rw [← h5]
    rw [heq, setFailStep_languages, hc5, hc4, hc2, hc1]

/-- Frame: `update_from_options` leaves `fail_on_error` unchanged when
neither layer supplies a truthy value for it. -/
theorem update_from_options_fail_frame (c : MdsfConfig) (o : MdsfOptions)
    (c' : MdsfConfig) (h : update_from_options c o = .ok c')
    (haf : o.api_fail.truthy = false)
    (hpf2 : o.plugin_present = true → o.plugin_fail.truthy = false) :
    c'.fail_on_error = c.fail_on_error := by
  obtain ⟨c1, c2, h1, h2, hrest⟩ := update_from_options_ok c o c' h
  have hc1 : c1.fail_on_error = c.fail_on_error := by
    rw [(setTimeoutStep_frame _ _ _ h1).2.2, setConfigStep_fail]
  have hc2 : c2.fail_on_error = c1.fail_on_error :=
    (setLanguagesApiStep_frame _ _ _ h2).2.2
  rcases hrest with ⟨hpf, heq⟩ | ⟨hp, c4, c5, h4, h5, heq⟩
  · rw [heq, setFailStep_id _ _ haf, hc2, hc1]
  · have hc4 : c4.fail_on_error = c2.fail_on_error := by
      rw [(setTimeoutStep_frame _ _ _ h4).2.2, setConfigStep_fail,
        setFailStep_id _ _ haf]
    have hc5 : c5.fail_on_error = c4.fail_on_error :=
      (setLanguagesPluginStep_frame _ _ _ h5).2.2
    rw [heq, setFailStep_id _ _ (hpf2 hp), hc5, hc4, hc2, hc1]

/-- Positivity: `update_from_options` keeps the timeout positive when every
timeout value it accepts parses to a positive integer. -/
theorem update_from_options_pos (c : MdsfConfig) (o : MdsfOptions)
    (c' : MdsfConfig) (hc : 0 < c.timeout)
    (hapi : ∀ n, pyInt o.api_timeout = .ok n → 0 < n)
    (hplug : ∀ n, pyInt o.plugin_timeout = .ok n → 0 < n)
    (h : update_from_options c o = .ok c') : 0 < c'.timeout := by
  obtain ⟨c1, c2, h1, h2, hrest⟩ := update_from_options_ok c o c' h
  have hc1 : 0 < c1.timeout :=
    setTimeoutStep_pos _ _ _ (by rw [setConfigStep_timeout]; exact hc) hapi h1
  have hc2 : 0 < c2.timeout := by
    rw [(setLanguagesApiStep_frame _ _ _ h2).2.1]; exact hc1
  rcases hrest with ⟨hpf, heq⟩ | ⟨hp, c4, c5, h4, h5, heq⟩
  · rw [heq, setFailStep_timeout]; exact hc2
  · have hc4 : 0 < c4.timeout :=
      setTimeoutStep_pos _ _ _
        (by rw [setConfigStep_timeout, setFailStep_timeout]; exact hc2)
        hplug h4
    have hc5 : 0 < c5.timeout := by
      rw [(setLanguagesPluginStep_frame _ _ _ h5).2.1]; exact hc4
    rw [heq, setFailStep_timeout]; exact hc5

end MdsfConfig

namespace MdsfConfig

/-- The first half of `update_from_env` (the `MDSF_CONFIG` branch) only
ever touches the config path. -/
theorem envConfigPart_frame (c : MdsfConfig) (ecfg : Option String) :
    (match ecfg with
      | some s => if s = "" then c else { c with config_path := .vStr s }
      | none => c).timeout = c.timeout ∧
    (match ecfg with
      | some s => if s = "" then c else { c with config_path := .vStr s }
      | none => c).languages = c.languages ∧
    (match ecfg with
      | some s => if s = "" then c else { c with config_path := .vStr s }
      | none => c).fail_on_error = c.fail_on_error := by
  cases ecfg with
  | none => exact ⟨rfl, rfl, rfl⟩
  | some s0 =>
    simp only []
    by_cases hs0 : s0 = ""
    · rw [if_pos hs0]
      exact ⟨rfl, rfl, rfl⟩
    · rw [if_neg hs0]
      exact ⟨rfl, rfl, rfl⟩

/-- `update_from_env` never touches the language set. -/
theorem update_from_env_languages (c : MdsfConfig) (e : EnvMap) :
    (update_from_env c e).languages = c.languages := by
  rcases e with ⟨ecfg, etim⟩
  unfold update_from_env
  simp only []
  cases etim with
  | none => exact (envConfigPart_frame c ecfg).2.1
  | some s =>
    simp only []
    by_cases hs : s = ""
    · rw [if_pos hs]
      exact (envConfigPart_frame c ecfg).2.1
    · rw [if_neg hs]
      cases pyIntOfString s with
      | ok n => exact (envConfigPart_frame c ecfg).2.1
      | error err => exact (envConfigPart_frame c ecfg).2.1

/-- `update_from_env` never touches `fail_on_error`. -/
theorem update_from_env_fail (c : MdsfConfig) (e : EnvMap) :
    (update_from_env c e).fail_on_error = c.fail_on_error := by
  rcases e with ⟨ecfg, etim⟩
  unfold update_from_env
  simp only []
  cases etim with
  | none => exact (envConfigPart_frame c ecfg).2.2
  | some s =>
    simp only []
    by_cases hs : s = ""
    · rw [if_pos hs]
      exact (envConfigPart_frame c ecfg).2.2
    · rw [if_neg hs]
      cases pyIntOfString s with
      | ok n => exact (envConfigPart_frame c ecfg).2.2
      | error err => exact (envConfigPart_frame c ecfg).2.2

/-- Frame: `update_from_env` leaves the config path unchanged when
`MDSF_CONFIG` is unset or empty. -/
theorem update_from_env_config_frame (c : MdsfConfig) (e : EnvMap)
    (h : e.mdsf_config = none ∨ e.mdsf_config = some "") :
    (update_from_env c e).config_path = c.config_path := by
  rcases e with ⟨ecfg, etim⟩
  simp only [] at h
  unfold update_from_env
  simp only []
  rcases h with h | h <;> subst h
  · cases etim with
    | none => rfl
    | some s =>
      simp only []
      by_cases hs : s = ""
      · rw [if_pos hs]
      · rw [if_neg hs]
        cases pyIntOfString s <;> rfl
  · cases etim with
    | none => simp
    | some s =>
      simp only []
      by_cases hs : s = ""
      · rw [if_pos hs]
        simp
      · rw [if_neg hs]
        cases pyIntOfString s <;> simp

/-- Frame: `update_from_env` leaves the timeout unchanged when
`MDSF_TIMEOUT` is unset or empty. -/
theorem update_from_env_timeout_frame (c : MdsfConfig) (e : EnvMap)
    (h : e.mdsf_timeout = none ∨ e.mdsf_timeout = some "") :
    (update_from_env c e).timeout = c.timeout := by
  rcases e with ⟨ecfg, etim⟩
  simp only [] at h
  unfold update_from_env
  simp only []
  rcases h with h | h <;> subst h
  · exact (envConfigPart_frame c ecfg).1
  · simpa using (envConfigPart_frame c ecfg).1

/-- Positivity: `update_from_env` keeps the timeout positive when any
`MDSF_TIMEOUT` value that parses yields a positive integer. -/
theorem update_from_env_pos (c : MdsfConfig) (e : EnvMap)
    (hc : 0 < c.timeout)
    (he : ∀ s n, e.mdsf_timeout = some s → pyIntOfString s = .ok n → 0 < n) :
    0 < (update_from_env c e).timeout := by
  rcases e with ⟨ecfg, etim⟩
  unfold update_from_env
  simp only []
  simp only [] at he
  cases etim with
  | none =>
    rw [(envConfigPart_frame c ecfg).1]
    exact hc
  | some s =>
    simp only []
    by_cases hs : s = ""
    · rw [if_pos hs, (envConfigPart_frame c ecfg).1]
      exact hc
    · rw [if_neg hs]
      cases hp : pyIntOfString s with
      | ok n => exact he s n rfl hp
      | error err =>
        rw [(envConfigPart_frame c ecfg).1]
        exact hc

end MdsfConfig

/-- For an `isinstance(..., int)` value the CLI assignment stores exactly
what `int(...)` would return. -/
theorem pyInt_intLike (v : PyVal) (h : isIntLike v = true) :
    pyInt v = .ok (intLikeVal v) := by
  cases v <;> simp [isIntLike] at h <;> rfl

theorem cliTimeoutStep_pos (o : MdsfOptions) (c : MdsfConfig)
    (hc : 0 < c.timeout)
    (hv : ∀ n, pyInt o.cli_mdsf_timeout = .ok n → 0 < n) :
    0 < (cliTimeoutStep o c).timeout := by
  unfold cliTimeoutStep
  by_cases hcond : (o.cli_mdsf_timeout.truthy && isIntLike o.cli_mdsf_timeout)
      = true
  · rw [hcond, if_pos rfl]
    have hsplit := hcond
    simp only [Bool.and_eq_true] at hsplit
    exact hv _ (pyInt_intLike _ hsplit.2)
  · rw [Bool.eq_false_iff.mpr hcond]
    simp only [Bool.false_eq_true, if_false]
    exact hc

/-! ## The claims about configuration resolution -/

/-- C1: evaluating the full configuration resolution at the specified
scenario — API option `mdsf_timeout=60`, plugin option `timeout=45` and
environment variable `MDSF_TIMEOUT=10` set simultaneously — yields an
effective timeout of 10, because each later layer (API, then plugin, then
environment) overwrites any truthy value, contrary to the documented
precedence under which the API value 60 would win. -/
theorem mdsf_env_overrides_api_timeout :
    (_setup_from_options mdsfDefault
        { api_timeout := .vInt 60, plugin_present := true,
          plugin_timeout := .vInt 45 }
        { mdsf_timeout := some "10" }).map MdsfConfig.timeout =
      .ok 10 ∧ (10 : Int) ≠ 60 := by
  exact ⟨rfl, by decide⟩

/-- C7 counterexample: a malformed (truthy, non-numeric) timeout at the API
options layer is fatal — `int("abc")` raises `ValueError` out of
`update_from_options`. -/
theorem mdsf_api_malformed_timeout_raises :
    MdsfConfig.update_from_options mdsfDefault { api_timeout := .vStr "abc" } =
      .error .valueError := by
  rfl

/-- C7 amended: malformed values are silently ignored only at the
environment layer — an unparseable `MDSF_TIMEOUT` leaves the configuration
unchanged and `update_from_env` never raises — while a truthy timeout value
that `int(...)` rejects at the API options layer raises `ValueError`. -/
theorem mdsf_malformed_config_policy :
    (∀ (c : MdsfConfig) (s : String),
      pyIntOfString s = .error .valueError →
      MdsfConfig.update_from_env c { mdsf_config := none, mdsf_timeout := some s }
        = c) ∧
    (∀ (c : MdsfConfig) (v : PyVal),
      v.truthy = true → pyInt v = .error .valueError →
      MdsfConfig.update_from_options c { api_timeout := v } =
        .error .valueError) := by
  constructor
  · intro c s hps
    unfold MdsfConfig.update_from_env
    simp only []
    by_cases hs : s = ""
    · rw [if_pos hs]
    · rw [if_neg hs, hps]
  · intro c v htr hpi
    unfold MdsfConfig.update_from_options
    rw [show MdsfConfig.setConfigStep
        (MdsfOptions.api_config { api_timeout := v }) c = c from rfl]
    rw [show MdsfOptions.api_timeout { api_timeout := v } = v from rfl]
    unfold MdsfConfig.setTimeoutStep
    rw [htr, if_pos rfl, hpi]
    rfl

/-- C7 witness: `MDSF_TIMEOUT=invalid` is ignored, while an API-layer
timeout of `"abc"` raises. -/
theorem mdsf_malformed_config_policy_witness :
    MdsfConfig.update_from_env mdsfDefault
        { mdsf_config := none, mdsf_timeout := some "invalid" } = mdsfDefault ∧
      MdsfConfig.update_from_options mdsfDefault
        { api_timeout := .vStr "abc" } = .error .valueError := by
  exact ⟨mdsf_malformed_config_policy.1 mdsfDefault "invalid" rfl,
    mdsf_malformed_config_policy.2 mdsfDefault (.vStr "abc") (by decide) rfl⟩

/-- C9 counterexample: the invariant `timeoutSeconds > 0` is not maintained
for every input — supplying `mdsf_timeout=-5` at the API layer stores the
non-positive value `-5`. -/
theorem mdsf_negative_timeout_stored :
    (MdsfConfig.update_from_options mdsfDefault
        { api_timeout := .vInt (-5) }).map MdsfConfig.timeout = .ok (-5) ∧
      ¬((-5 : Int) > 0) := by
  exact ⟨rfl, by decide⟩

/-- C9 amended: the timeout is positive after initialization (default 30)
and stays positive through every configuration-resolution operation
(`update_from_options`, `update_from_env`, and the full
`_setup_from_options` pass) provided every timeout value the operation
accepts — a truthy options value that `int(...)` converts, or an
`MDSF_TIMEOUT` string that parses — is a positive integer. -/
theorem mdsf_timeout_positive_invariant :
    (0 < mdsfDefault.timeout) ∧
    (∀ (c : MdsfConfig) (o : MdsfOptions) (c' : MdsfConfig),
      0 < c.timeout →
      (∀ n, pyInt o.api_timeout = .ok n → 0 < n) →
      (∀ n, pyInt o.plugin_timeout = .ok n → 0 < n) →
      MdsfConfig.update_from_options c o = .ok c' → 0 < c'.timeout) ∧
    (∀ (c : MdsfConfig) (e : EnvMap),
      0 < c.timeout →
      (∀ s n, e.mdsf_timeout = some s → pyIntOfString s = .ok n → 0 < n) →
      0 < (MdsfConfig.update_from_env c e).timeout) ∧
    (∀ (c : MdsfConfig) (o : MdsfOptions) (e : EnvMap) (c' : MdsfConfig),
      0 < c.timeout →
      (∀ n, pyInt o.cli_mdsf_timeout = .ok n → 0 < n) →
      (∀ n, pyInt o.api_timeout = .ok n → 0 < n) →
      (∀ n, pyInt o.plugin_timeout = .ok n → 0 < n) →
      (∀ s n, e.mdsf_timeout = some s → pyIntOfString s = .ok n → 0 < n) →
      _setup_from_options c o e = .ok c' → 0 < c'.timeout) := by
  refine ⟨by decide, ?_, ?_, ?_⟩
  · intro c o c' hc hapi hplug h
    exact MdsfConfig.update_from_options_pos c o c' hc hapi hplug h
  · intro c e hc he
    exact MdsfConfig.update_from_env_pos c e hc he
  · intro c o e c' hc hcli hapi hplug he h
    unfold _setup_from_options at h
    obtain ⟨c5, h5, h6⟩ := except_map_ok _ _ _ h
    subst h6
    apply MdsfConfig.update_from_env_pos _ _ _ he
    apply MdsfConfig.update_from_options_pos _ o _ _ hapi hplug h5
    rw [cliFailStep_timeout, cliLanguagesStep_timeout]
    exact cliTimeoutStep_pos o _ (by rw [cliConfigStep_timeout]; exact hc) hcli

/-- C9 amended witness: starting from the defaults, the scenario CLI unset,
API timeout 60, plugin timeout 45 and `MDSF_TIMEOUT=10` keeps the timeout
positive through the full resolution. -/
theorem mdsf_timeout_positive_invariant_witness :
    0 < mdsfDefault.timeout ∧
      _setup_from_options mdsfDefault
        { api_timeout := .vInt 60, plugin_present := true,
          plugin_timeout := .vInt 45 }
        { mdsf_timeout := some "10" } =
        .ok { config_path := .vNone, timeout := 10, languages := [],
              fail_on_error := false } ∧
      (0 : Int) < 10 := by
  refine ⟨mdsf_timeout_positive_invariant.1, rfl, ?_⟩
  have h := mdsf_timeout_positive_invariant.2.2.2 mdsfDefault
    { api_timeout := .vInt 60, plugin_present := true,
      plugin_timeout := .vInt 45 }
    { mdsf_timeout := some "10" }
    { config_path := .vNone, timeout := 10, languages := [],
      fail_on_error := false }
    (by decide)
    (fun n hn => by simp [pyInt] at hn)
    (fun n hn => by
      simp only [pyInt, Except.ok.injEq] at hn
      subst hn
      decide)
    (fun n hn => by
      simp only [pyInt, Except.ok.injEq] at hn
      subst hn
      decide)
    (fun s n hs hn => by
      simp only [Option.some.injEq] at hs
      subst hs
      rw [show pyIntOfString "10" = .ok 10 from rfl] at hn
      simp only [Except.ok.injEq] at hn
      subst hn
      decide)
    rfl
  exact h

/-- C10: every configuration-update operation (`update_from_options`,
`update_from_env`, and the CLI setup pass `_setup_from_options`) leaves a
field unchanged unless the incoming source supplies a truthy (and, for CLI
arguments, correctly typed) value for that field; in particular a falsy
`fail_on_error=False`, `timeout=0`, empty language collection or empty
config path never resets a stored value. -/
theorem mdsf_config_update_frame :
    (∀ (c : MdsfConfig) (o : MdsfOptions) (c' : MdsfConfig),
      MdsfConfig.update_from_options c o = .ok c' →
      (o.api_timeout.truthy = false →
        (o.plugin_present = true → o.plugin_timeout.truthy = false) →
        c'.timeout = c.timeout) ∧
      (o.api_config.truthy = false →
        (o.plugin_present = true → o.plugin_config.truthy = false) →
        c'.config_path = c.config_path) ∧
      (o.api_languages.truthy = false →
        (o.plugin_present = true → o.plugin_languages.truthy = false) →
        c'.languages = c.languages) ∧
      (o.api_fail.truthy = false →
        (o.plugin_present = true → o.plugin_fail.truthy = false) →
        c'.fail_on_error = c.fail_on_error)) ∧
    (∀ (c : MdsfConfig) (e : EnvMap),
      (MdsfConfig.update_from_env c e).languages = c.languages ∧
      (MdsfConfig.update_from_env c e).fail_on_error = c.fail_on_error ∧
      (e.mdsf_config = none ∨ e.mdsf_config = some "" →
        (MdsfConfig.update_from_env c e).config_path = c.config_path) ∧
      (e.mdsf_timeout = none ∨ e.mdsf_timeout = some "" →
        (MdsfConfig.update_from_env c e).timeout = c.timeout)) ∧
    (∀ (c : MdsfConfig) (o : MdsfOptions) (e : EnvMap) (c' : MdsfConfig),
      _setup_from_options c o e = .ok c' →
      ((o.cli_mdsf_timeout.truthy && isIntLike o.cli_mdsf_timeout) = false →
        o.api_timeout.truthy = false →
        (o.plugin_present = true → o.plugin_timeout.truthy = false) →
        (e.mdsf_timeout = none ∨ e.mdsf_timeout = some "") →
        c'.timeout = c.timeout) ∧
      ((o.cli_mdsf_config.truthy && isVStr o.cli_mdsf_config) = false →
        o.api_config.truthy = false →
        (o.plugin_present = true → o.plugin_config.truthy = false) →
        (e.mdsf_config = none ∨ e.mdsf_config = some "") →
        c'.config_path = c.config_path) ∧
      ((o.cli_mdsf_languages.truthy && isVStr o.cli_mdsf_languages) = false →
        o.api_languages.truthy = false →
        (o.plugin_present = true → o.plugin_languages.truthy = false) →
        c'.languages = c.languages) ∧
      ((o.cli_mdsf_fail.truthy && isVBool o.cli_mdsf_fail) = false →
        o.api_fail.truthy = false →
        (o.plugin_present = true → o.plugin_fail.truthy = false) →
        c'.fail_on_error = c.fail_on_error)) := by
  refine ⟨?_, ?_, ?_⟩
  · intro c o c' h
    exact ⟨fun h1 h2 => MdsfConfig.update_from_options_timeout_frame c o c' h h1 h2,
      fun h1 h2 => MdsfConfig.update_from_options_config_frame c o c' h h1 h2,
      fun h1 h2 => MdsfConfig.update_from_options_languages_frame c o c' h h1 h2,
      fun h1 h2 => MdsfConfig.update_from_options_fail_frame c o c' h h1 h2⟩
  · intro c e
    exact ⟨MdsfConfig.update_from_env_languages c e,
      MdsfConfig.update_from_env_fail c e,
      fun h => MdsfConfig.update_from_env_config_frame c e h,
      fun h => MdsfConfig.update_from_env_timeout_frame c e h⟩
  · intro c o e c' h
    unfold _setup_from_options at h
    obtain ⟨c5, h5, h6⟩ := except_map_ok _ _ _ h
    subst h6
    refine ⟨?_, ?_, ?_, ?_⟩
    · intro hcli hapi hplug henv
      rw [MdsfConfig.update_from_env_timeout_frame _ _ henv,
        MdsfConfig.update_from_options_timeout_frame _ o _ h5 hapi hplug,
        cliFailStep_timeout, cliLanguagesStep_timeout,
        cliTimeoutStep_id _ _ hcli, cliConfigStep_timeout]
    · intro hcli hapi hplug henv
      rw [MdsfConfig.update_from_env_config_frame _ _ henv,
        MdsfConfig.update_from_options_config_frame _ o _ h5 hapi hplug,
        cliFailStep_config, cliLanguagesStep_config,
        cliTimeoutStep_config, cliConfigStep_id _ _ hcli]
    · intro hcli hapi hplug
      rw [MdsfConfig.update_from_env_languages,
        MdsfConfig.update_from_options_languages_frame _ o _ h5 hapi hplug,
        cliFailStep_languages, cliLanguagesStep_id _ _ hcli,
        cliTimeoutStep_languages, cliConfigStep_languages]
    · intro hcli hapi hplug
      rw [MdsfConfig.update_from_env_fail,
        MdsfConfig.update_from_options_fail_frame _ o _ h5 hapi hplug,
        cliFailStep_id _ _ hcli, cliLanguagesStep_fail,
        cliTimeoutStep_fail, cliConfigStep_fail]

/-- C10 witness: explicitly supplied falsy values — `fail_on_error=False`,
`timeout=0`, an empty language list, an empty config path, and empty
environment strings — leave a previously populated configuration
untouched. -/
theorem mdsf_config_update_frame_witness :
    _setup_from_options
        { config_path := .vStr "/keep.json", timeout := 7,
          languages := ["python"], fail_on_error := true }
        { api_config := .vStr "", api_timeout := .vInt 0,
          api_languages := .vStrList [], api_fail := .vBool false,
          plugin_present := true, plugin_config := .vStr "",
          plugin_timeout := .vInt 0, plugin_languages := .vStrList [],
          plugin_fail := .vBool false }
        { mdsf_config := some "", mdsf_timeout := some "" } =
      .ok { config_path := .vStr "/keep.json", timeout := 7,
            languages := ["python"], fail_on_error := true } ∧
      ({ config_path := .vStr "/keep.json", timeout := 7,
         languages := ["python"], fail_on_error := true } : MdsfConfig).timeout
        = 7 := by
  have happ := mdsf_config_update_frame.2.2
    { config_path := .vStr "/keep.json", timeout := 7,
      languages := ["python"], fail_on_error := true }
    { api_config := .vStr "", api_timeout := .vInt 0,
      api_languages := .vStrList [], api_fail := .vBool false,
      plugin_present := true, plugin_config := .vStr "",
      plugin_timeout := .vInt 0, plugin_languages := .vStrList [],
      plugin_fail := .vBool false }
    { mdsf_config := some "", mdsf_timeout := some "" }
    { config_path := .vStr "/keep.json", timeout := 7,
      languages := ["python"], fail_on_error := true } rfl
  have ht := happ.1 (by decide) (by decide) (fun _ => by decide) (Or.inr rfl)
  have hcfg := happ.2.1 (by decide) (by decide) (fun _ => by decide)
    (Or.inr rfl)
  have hl := happ.2.2.1 (by decide) (by decide) (fun _ => by decide)
  have hf := happ.2.2.2 (by decide) (by decide) (fun _ => by decide)
  exact ⟨rfl, ht⟩
